import Mathlib

/-!
Verification of the EFB Telegram Master channel core
(`src/ehforwarderbot/channels/master/blueset/telegram/__init__.py`):
a shallow embedding of the transport-error recovery handler
(`TelegramChannel.error`, lines 236-295), of the configuration
validation (`TelegramChannel.load_config`, lines 124-151), and of the
Association Store operations the handler calls.

The store (`DatabaseManager`), the gateway wrapper
(`TelegramBotManager.send_message`), the flags manager and
`etm_utils.chat_id_to_str` are repository code that is not part of the
given sources; those are modelled from the specification (each such
definition carries a doc comment that says so).  Everything else is
translated directly from the Python source.
-/

/-! ## Substring containment (Python `needle in str(error)`) -/

/-- Whether `needle` occurs at the very start of `hay` (character lists). -/
def matchesAt : List Char → List Char → Bool
  | [], _ => true
  | _ :: _, [] => false
  | n :: ns, h :: hs => n == h && matchesAt ns hs

/-- Whether `needle` occurs anywhere inside `hay`: the semantics of
Python's `needle in hay` on strings, used by the handler's 409-conflict
check. -/
def containsSub (needle : List Char) : List Char → Bool
  | [] => matchesAt needle []
  | h :: hs => matchesAt needle (h :: hs) || containsSub needle hs

/-! ## Data model -/

/-- The most-derived `python-telegram-bot` exception class of the error
delivered to the callback.  In the library's hierarchy `BadRequest` and
`TimedOut` are subclasses of `NetworkError`; `networkError` stands for a
`NetworkError` that is neither of those, so the six tags partition the
values reaching the `except` clauses of the handler. -/
inductive ETag
  | unauthorized
  | badRequest
  | timedOut
  | networkError
  | chatMigrated (new_chat_id : Int)
  | otherError
deriving DecidableEq, Repr

/-- A raw transport error: its string form `str(error)` and its class. -/
structure TGError where
  text : String
  ty : ETag
deriving DecidableEq, Repr

/-- The `telegram.Message` attached to an update; the handler only reads
its `chat_id` and calls `reply_text` on it. -/
structure TMessage where
  chat_id : Int
deriving DecidableEq, Repr

/-- A `telegram.Update`; `message = none` models an update object whose
`message` attribute is missing or not a `telegram.Message`. -/
structure TUpdate where
  message : Option TMessage
deriving DecidableEq, Repr

/-- The configuration the handler consults: `self.channel_id`,
`self.config['admins']`, and the `network_error_prompt_interval`
experimental flag. -/
structure Config where
  channel_id : String
  admins : List Int
  network_error_prompt_interval : Nat
deriving DecidableEq, Repr

/-- Outcome oracle for the raw (library-level) Telegram calls the handler
makes: `update.message.reply_text` (line 262), the migration confirmation
`bot.send_message` (line 283) and the fallback alert `bot.send_message`
inside the bare `except` branch (line 287).  `false` means the call
raises a transport exception. -/
structure Env where
  replyOk : Bool
  migrateSendOk : Bool
  fallbackSendOk : Bool
deriving DecidableEq, Repr

/-- Mutable channel state touched by the handler: the session network
error counter `self.timeout_count` and the persisted association rows
`(slave_uid, master_uid)` of the store. -/
structure ChanState where
  timeout_count : Nat
  assocs : List (String × String)
deriving DecidableEq, Repr

/-- Which operator alert (send to `config['admins'][0]`) is being made. -/
inductive AlertKind
  | conflict
  | invalidRequest
  | networkSummary (count : Nat)
deriving DecidableEq, Repr

/-- Which `logger` call site fired. -/
inductive LogSite
  | unauthorizedErr
  | badRequestErr
  | networkErr
  | sendFailedErr
  | unhandledErr
deriving DecidableEq, Repr

/-- Observable side effects of one handler invocation, in order. -/
inductive Effect
  | logCritical
  | logError (site : LogSite)
  | logDebug
  | adminSend (target : Int) (kind : AlertKind)
  | replyText (chat : Int)
  | botSend (chat : Int) (count : Nat)
  | botSendFallback (target : Int)
deriving DecidableEq, Repr

/-- Exception that escapes the handler to its caller, when one does. -/
inductive Raised
  | replyFailed
  | migrateSendFailed
  | attrNone
deriving DecidableEq, Repr

/-- Result of one handler invocation: final state, ordered effect trace,
and the exception that propagated to the caller, if any. -/
structure HResult where
  state : ChanState
  effects : List Effect
  raised : Option Raised
deriving DecidableEq, Repr

/-- The error categories of the classification (spec section 4.3). -/
inductive EClass
  | pollingConflict
  | unauthorized
  | invalidRequest
  | networkTransient
  | conversationMigrated (new_chat_id : Int)
  | unclassified
deriving DecidableEq, Repr

/-! ## Spec-modelled collaborators (repository code not in the sources) -/

namespace etm_utils

/-- Modelled from the spec: `etm_utils.chat_id_to_str` (module `utils` is
not in the given sources).  A `ConversationRef` serializes to the single
string key `"originSystem#conversationId"`. -/
def chat_id_to_str (channel_id : String) (chat_id : Int) : String :=
  channel_id ++ "#" ++ toString chat_id

end etm_utils

namespace DatabaseManager

/-- Modelled from the spec: Association Store `FindByMaster`
(`db.get_chat_assoc(master_uid=...)`; `db.py` is not in the given
sources) — the slave refs of every row whose master matches. -/
def get_chat_assoc (assocs : List (String × String)) (master_uid : String) : List String :=
  (assocs.filter (fun r => r.2 == master_uid)).map Prod.fst

/-- Modelled from the spec: Association Store `Remove`
(`db.remove_chat_assoc(slave_uid=...)`) — drops the row keyed by the
slave ref; a no-op if absent. -/
def remove_chat_assoc (assocs : List (String × String)) (slave_uid : String) : List (String × String) :=
  assocs.filter (fun r => !(r.1 == slave_uid))

/-- Modelled from the spec: Association Store `Put`
(`db.add_chat_assoc(master_uid=..., slave_uid=...)`) — records a row
keyed by the slave ref storing the master ref. -/
def add_chat_assoc (assocs : List (String × String)) (master_uid slave_uid : String) : List (String × String) :=
  assocs ++ [(slave_uid, master_uid)]

/-- Modelled from the spec: Association Store `FindBySlave` — the master
ref of the row keyed by the slave ref, if any. -/
def find_by_slave (assocs : List (String × String)) (slave_uid : String) : Option String :=
  (assocs.find? (fun r => r.1 == slave_uid)).map Prod.snd

end DatabaseManager

/-! ## The error handler (source lines 236-295) -/

/-- The 409-conflict marker tested at line 241 of the source. -/
def conflictMsgText : String :=
  "Conflict: terminated by other long poll or webhook (409)"

/-- The classification the handler's dispatch implements: the substring
test of line 241 first, then the `except` clauses in source order. -/
def classify (e : TGError) : EClass :=
  if containsSub conflictMsgText.data e.text.data then .pollingConflict
  else
    match e.ty with
    | .unauthorized => .unauthorized
    | .badRequest => .invalidRequest
    | .timedOut => .networkTransient
    | .networkError => .networkTransient
    | .chatMigrated n => .conversationMigrated n
    | .otherError => .unclassified

/-- Whether the update has a `telegram.Message` attached: the guard
`update is not None and isinstance(getattr(update, "message", None),
telegram.Message)` of line 261. -/
def hasMessage : Option TUpdate → Bool
  | some u => u.message.isSome
  | none => false

/-- Lines 266-273: the periodic operator summary after the (possible)
best-effort reply in the network branch.  The flag lookup
`self.flag('network_error_prompt_interval')` is modelled from the spec
as the configured `alertInterval` (the flags manager is not in the
given sources); `bot_manager.send_message` is modelled from the spec as
the Bot Gateway `SendMessage` capability returning a `Result`, hence
never throwing past the engine. -/
def afterReply (cfg : Config) (st1 : ChanState) (effs : List Effect) : HResult :=
  if cfg.network_error_prompt_interval > 0 &&
      st1.timeout_count % cfg.network_error_prompt_interval == 0 then
    ⟨st1, effs ++ [.adminSend (cfg.admins.headD 0) (.networkSummary st1.timeout_count)], none⟩
  else
    ⟨st1, effs, none⟩

/-- Lines 256-273: the `except (TimedOut, NetworkError)` branch.
`update.message.reply_text` is a raw library call; when it fails the
exception leaves the `except` clause and the handler. -/
def networkBranch (cfg : Config) (env : Env) (st : ChanState) (update : Option TUpdate) : HResult :=
  let st1 : ChanState := { st with timeout_count := st.timeout_count + 1 }
  match update with
  | some u =>
    match u.message with
    | some m =>
      if env.replyOk then
        afterReply cfg st1 [.logError .networkErr, .replyText m.chat_id]
      else
        ⟨st1, [.logError .networkErr, .replyText m.chat_id], some .replyFailed⟩
    | none => afterReply cfg st1 [.logError .networkErr]
  | none => afterReply cfg st1 [.logError .networkErr]

/-- Lines 278-282: the migration loop body applied over the snapshot of
slave refs bound to the old master — per row, remove the association
then re-add it under the new master — returning the final store and the
`count` the loop accumulates. -/
def migrateLoop (new_master : String) : List String → List (String × String) → List (String × String) × Nat
  | [], assocs => (assocs, 0)
  | i :: rest, assocs =>
    let out := migrateLoop new_master rest
      (DatabaseManager.add_chat_assoc (DatabaseManager.remove_chat_assoc assocs i) new_master i)
    (out.1, out.2 + 1)

/-- Lines 274-284: the `except ChatMigrated` branch.  Reading
`update.message.chat_id` with no message raises `AttributeError`; the
confirmation `bot.send_message(new_id, ...)` is a raw library call whose
failure also escapes. -/
def migratedBranch (cfg : Config) (env : Env) (st : ChanState) (update : Option TUpdate)
    (new_id : Int) : HResult :=
  match update with
  | none => ⟨st, [], some .attrNone⟩
  | some u =>
    match u.message with
    | none => ⟨st, [], some .attrNone⟩
    | some m =>
      let old_id := m.chat_id
      let slaves := DatabaseManager.get_chat_assoc st.assocs
        (etm_utils.chat_id_to_str cfg.channel_id old_id)
      let out := migrateLoop (etm_utils.chat_id_to_str cfg.channel_id new_id) slaves st.assocs
      ⟨{ st with assocs := out.1 },
        List.replicate slaves.length Effect.logDebug ++ [.botSend new_id out.2],
        if env.migrateSendOk then none else some .migrateSendFailed⟩

namespace TelegramChannel

/-- `TelegramChannel.error` (source lines 236-295): the transport-error
recovery entry point, as a function of the configuration, the raw-send
outcome oracle, the channel state, the update and the error. -/
def error (cfg : Config) (env : Env) (st : ChanState) (update : Option TUpdate)
    (err : TGError) : HResult :=
  if containsSub conflictMsgText.data err.text.data then
    ⟨st, [.logCritical, .adminSend (cfg.admins.headD 0) .conflict], none⟩
  else
    match err.ty with
    | .unauthorized => ⟨st, [.logError .unauthorizedErr], none⟩
    | .badRequest =>
      ⟨st, [.logError .badRequestErr, .adminSend (cfg.admins.headD 0) .invalidRequest], none⟩
    | .timedOut => networkBranch cfg env st update
    | .networkError => networkBranch cfg env st update
    | .chatMigrated new_id => migratedBranch cfg env st update new_id
    | .otherError =>
      ⟨st,
        [.botSendFallback (cfg.admins.headD 0)] ++
          (if env.fallbackSendOk then [] else [.logError .sendFailedErr]) ++
          [.logError .unhandledErr],
        none⟩

end TelegramChannel

/-- Feed the same update and error to the handler `n` times in a row,
threading the state and concatenating the effect traces. -/
def runSeq (cfg : Config) (env : Env) (update : Option TUpdate) (err : TGError) :
    Nat → ChanState → ChanState × List Effect
  | 0, st => (st, [])
  | n + 1, st =>
    let r := TelegramChannel.error cfg env st update err
    let rest := runSeq cfg env update err n r.state
    (rest.1, r.effects ++ rest.2)

/-- Whether an effect is the periodic network-error operator summary. -/
def isSummaryAlert : Effect → Bool
  | .adminSend _ (.networkSummary _) => true
  | _ => false

/-- Number of network-error operator summaries in a trace. -/
def countSummaryAlerts (l : List Effect) : Nat := l.countP isSummaryAlert

/-- Whether an effect is a best-effort reply to the originating message. -/
def isReplyEffect : Effect → Bool
  | .replyText _ => true
  | _ => false

/-- Whether an effect sends anything through the gateway (operator alert,
reply, migration confirmation or fallback alert), as opposed to a log. -/
def isSendEffect : Effect → Bool
  | .adminSend _ _ => true
  | .replyText _ => true
  | .botSend _ _ => true
  | .botSendFallback _ => true
  | _ => false

/-- Whether an effect is an operator alert: a send addressed to
`config['admins'][0]` (via the gateway wrapper or the raw fallback). -/
def isOperatorAlert : Effect → Bool
  | .adminSend _ _ => true
  | .botSendFallback _ => true
  | _ => false

/-- The successive store states of one iteration of the migration loop
(source lines 280-281): before, after `remove_chat_assoc`, and after the
following `add_chat_assoc`. -/
def migrationRowTrace (assocs : List (String × String)) (slave_uid new_master : String) :
    List (List (String × String)) :=
  [assocs,
   DatabaseManager.remove_chat_assoc assocs slave_uid,
   DatabaseManager.add_chat_assoc (DatabaseManager.remove_chat_assoc assocs slave_uid)
     new_master slave_uid]

/-! ## Configuration loading (source lines 124-151) -/

/-- A YAML-decoded Python value as far as `load_config` inspects one:
an `int`, a `str`, a `list`, `None` (a missing key), or anything else. -/
inductive PyVal
  | pyInt (n : Int)
  | pyStr (s : String)
  | pyList (xs : List PyVal)
  | pyNone
  | pyOther

/-- Python `str.isdigit` (restricted to ASCII): true exactly on a
non-empty string all of whose characters are digits. -/
def pyIsDigit (s : String) : Bool := s.length != 0 && s.data.all Char.isDigit

/-- Python `int(s)` on a digit string. -/
def pyToInt (s : String) : Int := Int.ofNat (s.toNat?.getD 0)

/-- The two normalization steps of lines 139-142: wrap a single `int`
into a one-element list; turn a digit `str` into a one-element list of
its integer value. -/
def normalize_admins (a : PyVal) : PyVal :=
  let a1 := match a with
    | .pyInt n => PyVal.pyList [.pyInt n]
    | x => x
  match a1 with
  | .pyStr s => if pyIsDigit s then PyVal.pyList [.pyInt (pyToInt s)] else .pyStr s
  | x => x

/-- The per-entry step of lines 145-149: convert a digit string to its
integer; any entry that is then not an `int` raises `ValueError`. -/
def convert_admin (e : PyVal) : Except String Int :=
  let e1 := match e with
    | .pyStr s => if pyIsDigit s then PyVal.pyInt (pyToInt s) else .pyStr s
    | x => x
  match e1 with
  | .pyInt n => .ok n
  | _ => .error "Admin ID is expected to be a string, but a non-integer is found."

/-- The per-entry loop of lines 145-149: convert each entry in order,
raising at the first entry that is not an `int` after conversion. -/
def convert_admins : List PyVal → Except String (List Int)
  | [] => .ok []
  | x :: rest =>
    match convert_admin x with
    | .error m => .error m
    | .ok n =>
      match convert_admins rest with
      | .error m => .error m
      | .ok ns => .ok (n :: ns)

/-- The `token` and `admins` fields of the decoded configuration mapping
(`data.get(..., None)` yields `pyNone` when a key is absent). -/
structure ConfData where
  token : PyVal
  admins : PyVal

namespace TelegramChannel

/-- `TelegramChannel.load_config` validation (source lines 137-151) as a
function of the decoded data: returns the verified token and admins or
the `ValueError` message raised. -/
def load_config (d : ConfData) : Except String (String × List Int) :=
  match d.token with
  | .pyStr tok =>
    match normalize_admins d.admins with
    | .pyList xs =>
      if xs.length < 1 then
        .error "Admins user IDs must be a list of one number or more."
      else
        match convert_admins xs with
        | .ok ys => .ok (tok, ys)
        | .error m => .error m
    | _ => .error "Admins user IDs must be a list of one number or more."
  | _ => .error "Telegram bot token must be a string"

end TelegramChannel

/-- Whether an `Except` computation succeeded. -/
def exceptOk {ε α : Type} : Except ε α → Bool
  | .ok _ => true
  | .error _ => false

/-! ## Concrete instances used by witnesses and counterexamples -/

/-- A sample configuration: one admin, alert interval 5. -/
def cfgS : Config := ⟨"blueset.telegram", [102938475], 5⟩

/-- Outcome oracle under which every raw send succeeds. -/
def envAll : Env := ⟨true, true, true⟩

/-- Outcome oracle under which the best-effort reply raises. -/
def envBadReply : Env := ⟨false, true, true⟩

/-- A fresh channel state: counter 0, one association under master 100. -/
def stS : ChanState := ⟨0, [("wechat#group1", "blueset.telegram#100")]⟩

/-- A `TimedOut` transport error. -/
def errTimeout : TGError := ⟨"Timed out", .timedOut⟩

/-- A `ChatMigrated` error carrying the new chat id 200. -/
def errMigr : TGError := ⟨"Group migrated", .chatMigrated 200⟩

/-- An update whose message lives in chat 100. -/
def updMsg : Option TUpdate := some ⟨some ⟨100⟩⟩

/-- Whether a classification outcome is the migration category. -/
def isMigratedClass : EClass → Bool
  | .conversationMigrated _ => true
  | _ => false

/-! ## Helper lemmas -/

theorem classify_eq_conflict_iff (e : TGError) :
    classify e = EClass.pollingConflict ↔
      containsSub conflictMsgText.data e.text.data = true := by
  unfold classify
  by_cases h : containsSub conflictMsgText.data e.text.data = true
  · simp [h]
  · simp only [Bool.not_eq_true] at h
    simp only [h, Bool.false_eq_true, if_false]
    cases e.ty <;> simp

theorem classify_eq_unauthorized_iff (e : TGError) :
    classify e = EClass.unauthorized ↔
      containsSub conflictMsgText.data e.text.data = false ∧ e.ty = ETag.unauthorized := by
  unfold classify
  by_cases h : containsSub conflictMsgText.data e.text.data = true
  · simp [h]
  · simp only [Bool.not_eq_true] at h
    simp only [h, Bool.false_eq_true, if_false, true_and]
    cases e.ty <;> simp

theorem classify_eq_network_iff (e : TGError) :
    classify e = EClass.networkTransient ↔
      containsSub conflictMsgText.data e.text.data = false ∧
        (e.ty = ETag.timedOut ∨ e.ty = ETag.networkError) := by
  unfold classify
  by_cases h : containsSub conflictMsgText.data e.text.data = true
  · simp [h]
  · simp only [Bool.not_eq_true] at h
    simp only [h, Bool.false_eq_true, if_false, true_and]
    cases e.ty <;> simp

theorem classify_eq_migrated_iff (e : TGError) (n : Int) :
    classify e = EClass.conversationMigrated n ↔
      containsSub conflictMsgText.data e.text.data = false ∧ e.ty = ETag.chatMigrated n := by
  unfold classify
  by_cases h : containsSub conflictMsgText.data e.text.data = true
  · simp [h]
  · simp only [Bool.not_eq_true] at h
    simp only [h, Bool.false_eq_true, if_false, true_and]
    cases e.ty <;> simp

theorem afterReply_state (cfg : Config) (st1 : ChanState) (effs : List Effect) :
    (afterReply cfg st1 effs).state = st1 := by
  unfold afterReply; split <;> rfl

theorem afterReply_raised (cfg : Config) (st1 : ChanState) (effs : List Effect) :
    (afterReply cfg st1 effs).raised = none := by
  unfold afterReply; split <;> rfl

theorem afterReply_cond_iff (cfg : Config) (st1 : ChanState) :
    (cfg.network_error_prompt_interval > 0 &&
        st1.timeout_count % cfg.network_error_prompt_interval == 0) = true ↔
      0 < cfg.network_error_prompt_interval ∧
        st1.timeout_count % cfg.network_error_prompt_interval = 0 := by
  simp only [gt_iff_lt, Bool.and_eq_true, decide_eq_true_eq, beq_iff_eq]

theorem afterReply_effects (cfg : Config) (st1 : ChanState) (effs : List Effect) :
    (afterReply cfg st1 effs).effects =
      effs ++
        (if 0 < cfg.network_error_prompt_interval ∧
            st1.timeout_count % cfg.network_error_prompt_interval = 0 then
          [Effect.adminSend (cfg.admins.headD 0) (AlertKind.networkSummary st1.timeout_count)]
        else []) := by
  unfold afterReply
  by_cases h : 0 < cfg.network_error_prompt_interval ∧
      st1.timeout_count % cfg.network_error_prompt_interval = 0
  · rw [if_pos h, if_pos ((afterReply_cond_iff cfg st1).mpr h)]
  · rw [if_neg h, if_neg (fun hc => h ((afterReply_cond_iff cfg st1).mp hc)), List.append_nil]

theorem countSummaryAlerts_afterReply (cfg : Config) (st1 : ChanState) (effs : List Effect) :
    countSummaryAlerts (afterReply cfg st1 effs).effects =
      countSummaryAlerts effs +
        (if 0 < cfg.network_error_prompt_interval ∧
            st1.timeout_count % cfg.network_error_prompt_interval = 0 then 1 else 0) := by
  rw [countSummaryAlerts, afterReply_effects, List.countP_append]
  by_cases h : 0 < cfg.network_error_prompt_interval ∧
      st1.timeout_count % cfg.network_error_prompt_interval = 0
  · simp [h, isSummaryAlert, countSummaryAlerts]
  · simp [h, countSummaryAlerts]

theorem networkBranch_state (cfg : Config) (env : Env) (st : ChanState) (upd : Option TUpdate) :
    (networkBranch cfg env st upd).state = ⟨st.timeout_count + 1, st.assocs⟩ := by
  cases upd with
  | none => unfold networkBranch; rw [afterReply_state]
  | some u =>
    obtain ⟨msg⟩ := u
    cases msg with
    | none => unfold networkBranch; rw [afterReply_state]
    | some m =>
      unfold networkBranch
      by_cases h : env.replyOk = true
      · simp only [h, if_true]; rw [afterReply_state]
      · simp only [Bool.not_eq_true] at h; simp [h]

theorem networkBranch_raised (cfg : Config) (env : Env) (st : ChanState) (upd : Option TUpdate) :
    (networkBranch cfg env st upd).raised =
      (if hasMessage upd = true ∧ env.replyOk = false then some Raised.replyFailed else none) := by
  cases upd with
  | none => unfold networkBranch; rw [afterReply_raised]; simp [hasMessage]
  | some u =>
    obtain ⟨msg⟩ := u
    cases msg with
    | none => unfold networkBranch; rw [afterReply_raised]; simp [hasMessage]
    | some m =>
      unfold networkBranch
      by_cases h : env.replyOk = true
      · simp only [h, if_true]; rw [afterReply_raised]; simp [h]
      · simp only [Bool.not_eq_true] at h
        simp [h, hasMessage]

theorem countSummaryAlerts_networkBranch (cfg : Config) (env : Env) (st : ChanState)
    (upd : Option TUpdate) :
    countSummaryAlerts (networkBranch cfg env st upd).effects =
      (if 0 < cfg.network_error_prompt_interval ∧
          (st.timeout_count + 1) % cfg.network_error_prompt_interval = 0 ∧
          (hasMessage upd = true → env.replyOk = true) then 1 else 0) := by
  cases upd with
  | none =>
    unfold networkBranch
    rw [countSummaryAlerts_afterReply]
    simp only [countSummaryAlerts, List.countP_cons, List.countP_nil, isSummaryAlert,
      hasMessage, Bool.false_eq_true, false_implies, and_true]
    simp
  | some u =>
    obtain ⟨msg⟩ := u
    cases msg with
    | none =>
      unfold networkBranch
      rw [countSummaryAlerts_afterReply]
      simp only [countSummaryAlerts, List.countP_cons, List.countP_nil, isSummaryAlert,
        hasMessage, Option.isSome_none, Bool.false_eq_true, false_implies, and_true]
      simp
    | some m =>
      unfold networkBranch
      by_cases h : env.replyOk = true
      · simp only [h, if_true]
        rw [countSummaryAlerts_afterReply]
        simp only [countSummaryAlerts, List.countP_cons, List.countP_nil, isSummaryAlert,
          h, implies_true, and_true]
        simp
      · simp only [Bool.not_eq_true] at h
        simp only [h, Bool.false_eq_true, if_false]
        have hcond : ¬(0 < cfg.network_error_prompt_interval ∧
            (st.timeout_count + 1) % cfg.network_error_prompt_interval = 0 ∧
            (hasMessage (some ⟨some m⟩) = true → False)) := by
          intro hc
          exact hc.2.2 (by simp [hasMessage])
        rw [if_neg hcond]
        simp [countSummaryAlerts, isSummaryAlert]

theorem migratedBranch_raised (cfg : Config) (env : Env) (st : ChanState)
    (upd : Option TUpdate) (n : Int) :
    (migratedBranch cfg env st upd n).raised =
      (if hasMessage upd = true then
        (if env.migrateSendOk = true then none else some Raised.migrateSendFailed)
      else some Raised.attrNone) := by
  cases upd with
  | none => unfold migratedBranch; simp [hasMessage]
  | some u =>
    obtain ⟨msg⟩ := u
    cases msg with
    | none => unfold migratedBranch; simp [hasMessage]
    | some m => unfold migratedBranch; simp [hasMessage]

theorem migrateLoop_spec (newM : String) (L : List String) :
    ∀ (A : List (String × String)), L.Nodup →
      migrateLoop newM L A =
        (A.filter (fun r => !(L.contains r.1)) ++ L.map (fun i => (i, newM)), L.length) := by
  induction L with
  | nil => intro A _; simp [migrateLoop]
  | cons i rest ih =>
    intro A h
    obtain ⟨hi, hrest⟩ := List.nodup_cons.mp h
    simp only [migrateLoop]
    rw [ih _ hrest]
    have hicontains : rest.contains i = false := by
      rw [← Bool.not_eq_true]
      intro hc
      exact hi (List.elem_iff.mp hc)
    have hfil : ((DatabaseManager.add_chat_assoc (DatabaseManager.remove_chat_assoc A i)
          newM i).filter (fun r => !(rest.contains r.1)))
        = A.filter (fun r => !((i :: rest).contains r.1)) ++ [(i, newM)] := by
      unfold DatabaseManager.add_chat_assoc DatabaseManager.remove_chat_assoc
      rw [List.filter_append, List.filter_filter]
      congr 1
      · apply List.filter_congr
        intro a _
        simp only [List.contains_cons, Bool.not_or, Bool.and_comm]
      · simp [hicontains, hi]
    rw [hfil]
    simp [List.append_assoc]

theorem nodup_get_chat_assoc (A : List (String × String)) (masterK : String)
    (hnd : (A.map Prod.fst).Nodup) :
    (DatabaseManager.get_chat_assoc A masterK).Nodup := by
  unfold DatabaseManager.get_chat_assoc
  exact hnd.sublist ((List.filter_sublist A).map Prod.fst)

theorem mem_get_chat_assoc (A : List (String × String)) (masterK : String) (r : String × String)
    (hr : r ∈ A) (hm : r.2 = masterK) : r.1 ∈ DatabaseManager.get_chat_assoc A masterK := by
  unfold DatabaseManager.get_chat_assoc
  exact List.mem_map_of_mem Prod.fst (List.mem_filter.mpr ⟨hr, by simp [hm]⟩)

theorem get_chat_assoc_migrated (A : List (String × String)) (oldK newK : String)
    (hne : oldK ≠ newK) :
    DatabaseManager.get_chat_assoc
      (A.filter (fun r => !((DatabaseManager.get_chat_assoc A oldK).contains r.1)) ++
        (DatabaseManager.get_chat_assoc A oldK).map (fun i => (i, newK))) oldK = [] := by
  set L := DatabaseManager.get_chat_assoc A oldK with hL
  unfold DatabaseManager.get_chat_assoc
  rw [List.filter_append]
  have h1 : (A.filter (fun r => !(L.contains r.1))).filter (fun r => r.2 == oldK) = [] := by
    rw [List.filter_filter, List.filter_eq_nil_iff]
    intro r hr
    intro hcon
    rw [Bool.and_eq_true] at hcon
    have hm2 : r.2 = oldK := beq_iff_eq.mp hcon.1
    have hmem : r.1 ∈ L := mem_get_chat_assoc A oldK r hr hm2
    have hcontains : L.contains r.1 = true := by
      simp only [List.contains, List.elem_iff]
      exact hmem
    rw [hcontains] at hcon
    simp at hcon
  have h2 : (L.map (fun i => (i, newK))).filter (fun r => r.2 == oldK) = [] := by
    rw [List.filter_eq_nil_iff]
    intro r hr
    obtain ⟨i, _, hri⟩ := List.mem_map.mp hr
    rw [← hri]
    simp only [Bool.not_eq_true, beq_eq_false_iff_ne, ne_eq]
    exact fun hc => hne (hc.symm)
  rw [h1, h2]
  rfl

theorem find_by_slave_remove (A : List (String × String)) (s : String) :
    DatabaseManager.find_by_slave (DatabaseManager.remove_chat_assoc A s) s = none := by
  unfold DatabaseManager.find_by_slave DatabaseManager.remove_chat_assoc
  rw [Option.map_eq_none', List.find?_eq_none]
  intro r hr
  have := (List.mem_filter.mp hr).2
  simp only [Bool.not_eq_true'] at this
  simp [this]

theorem find_by_slave_add_after_remove (A : List (String × String)) (s newM : String) :
    DatabaseManager.find_by_slave
      (DatabaseManager.add_chat_assoc (DatabaseManager.remove_chat_assoc A s) newM s) s =
      some newM := by
  unfold DatabaseManager.add_chat_assoc
  have hnone : (DatabaseManager.remove_chat_assoc A s).find? (fun r => r.1 == s) = none := by
    have := find_by_slave_remove A s
    unfold DatabaseManager.find_by_slave at this
    exact Option.map_eq_none'.mp this
  unfold DatabaseManager.find_by_slave
  rw [List.find?_append, hnone, Option.none_or]
  simp

theorem find_by_slave_migrated (A : List (String × String)) (oldK newK : String)
    (s : String) (hs : s ∈ DatabaseManager.get_chat_assoc A oldK) :
    DatabaseManager.find_by_slave
      (A.filter (fun r => !((DatabaseManager.get_chat_assoc A oldK).contains r.1)) ++
        (DatabaseManager.get_chat_assoc A oldK).map (fun i => (i, newK))) s = some newK := by
  set L := DatabaseManager.get_chat_assoc A oldK with hL
  unfold DatabaseManager.find_by_slave
  have h1 : (A.filter (fun r => !(L.contains r.1))).find? (fun r => r.1 == s) = none := by
    rw [List.find?_eq_none]
    intro r hr
    have hnc := (List.mem_filter.mp hr).2
    intro hrs
    have : r.1 ∈ L := by rw [beq_iff_eq.mp hrs]; exact hs
    have hc : L.contains r.1 = true := by
      simp only [List.contains, List.elem_iff]
      exact this
    rw [hc] at hnc
    simp at hnc
  rw [List.find?_append, h1, Option.none_or]
  cases hfind : (L.map (fun i => (i, newK))).find? (fun r => r.1 == s) with
  | none =>
    exfalso
    have := List.find?_eq_none.mp hfind (s, newK) (List.mem_map_of_mem _ hs)
    simp at this
  | some r =>
    obtain ⟨i, _, hri⟩ := List.mem_map.mp (List.mem_of_find?_eq_some hfind)
    rw [← hri]
    rfl

theorem convert_admin_ok_iff (e : PyVal) :
    exceptOk (convert_admin e) = true ↔
      ((∃ n, e = PyVal.pyInt n) ∨ (∃ s, e = PyVal.pyStr s ∧ pyIsDigit s = true)) := by
  cases e with
  | pyInt n => simp [convert_admin, exceptOk]
  | pyStr s =>
    by_cases hd : pyIsDigit s = true
    · simp [convert_admin, exceptOk, hd]
    · simp only [Bool.not_eq_true] at hd
      simp [convert_admin, exceptOk, hd]
  | pyList xs => simp [convert_admin, exceptOk]
  | pyNone => simp [convert_admin, exceptOk]
  | pyOther => simp [convert_admin, exceptOk]

theorem convert_admins_ok_iff (xs : List PyVal) :
    exceptOk (convert_admins xs) = true ↔
      ∀ e ∈ xs, ((∃ n, e = PyVal.pyInt n) ∨ (∃ s, e = PyVal.pyStr s ∧ pyIsDigit s = true)) := by
  induction xs with
  | nil => simp [convert_admins, exceptOk]
  | cons x xs ih =>
    unfold convert_admins
    cases hx : convert_admin x with
    | error msg =>
      simp only [exceptOk]
      constructor
      · intro habs; exact absurd habs (by simp)
      · intro hall
        exfalso
        have := (convert_admin_ok_iff x).mpr (hall x (by simp))
        rw [hx] at this
        exact Bool.false_ne_true this
    | ok b =>
      cases hxs : convert_admins xs with
      | error msg =>
        simp only [exceptOk]
        constructor
        · intro habs; exact absurd habs (by simp)
        · intro hall
          exfalso
          have h2 := ih.mpr (fun e he => hall e (by simp [he]))
          rw [hxs] at h2
          exact Bool.false_ne_true h2
      | ok bs =>
        simp only [exceptOk]
        constructor
        · intro _ e he
          rcases List.mem_cons.mp he with he1 | he2
          · subst he1
            exact (convert_admin_ok_iff e).mp (by rw [hx]; rfl)
          · exact (ih.mp (by rw [hxs]; rfl)) e he2
        · intro _; trivial

theorem error_eq_networkBranch (cfg : Config) (env : Env) (st : ChanState)
    (upd : Option TUpdate) (e : TGError) (h : classify e = EClass.networkTransient) :
    TelegramChannel.error cfg env st upd e = networkBranch cfg env st upd := by
  obtain ⟨hcf, hty⟩ := (classify_eq_network_iff e).mp h
  unfold TelegramChannel.error
  rw [if_neg (by simp [hcf])]
  rcases hty with h1 | h1 <;> rw [h1]

theorem error_eq_migratedBranch (cfg : Config) (env : Env) (st : ChanState)
    (upd : Option TUpdate) (e : TGError) (n : Int)
    (h : classify e = EClass.conversationMigrated n) :
    TelegramChannel.error cfg env st upd e = migratedBranch cfg env st upd n := by
  obtain ⟨hcf, hty⟩ := (classify_eq_migrated_iff e n).mp h
  unfold TelegramChannel.error
  rw [if_neg (by simp [hcf])]
  rw [hty]

/-! ## Claim theorems -/

/-- Claim C1, corrected.  The claim said the recovery entry point always
returns normally, containing every failure — including a failed
best-effort reply, a failed operator-alert send, and a migration event
whose update carries no message.  On the code this is false: the amended
statement proved here is that the handler returns normally exactly
unless (a) the error is network-transient, the update carries a message
and the best-effort reply send fails, or (b) the error is a chat
migration and either the update carries no message or the confirmation
send to the new chat fails.  Operator-alert sends made through the
gateway wrapper, and the fallback alert of the unclassified branch, are
contained. -/
theorem c1_error_containment_iff (cfg : Config) (env : Env) (st : ChanState)
    (upd : Option TUpdate) (e : TGError) :
    (TelegramChannel.error cfg env st upd e).raised = none ↔
      ¬ ((classify e = EClass.networkTransient ∧ hasMessage upd = true ∧ env.replyOk = false) ∨
         ((∃ n, classify e = EClass.conversationMigrated n) ∧
           (hasMessage upd = false ∨ env.migrateSendOk = false))) := by
  obtain ⟨txt, ty⟩ := e
  by_cases hc : containsSub conflictMsgText.data txt.data = true
  · have h1 : classify ⟨txt, ty⟩ = EClass.pollingConflict :=
      (classify_eq_conflict_iff _).mpr hc
    unfold TelegramChannel.error
    rw [if_pos hc]
    simp [h1]
  · have hcf : containsSub conflictMsgText.data txt.data = false := by simpa using hc
    cases ty with
    | unauthorized =>
      have h1 : classify ⟨txt, ETag.unauthorized⟩ = EClass.unauthorized :=
        (classify_eq_unauthorized_iff _).mpr ⟨hcf, rfl⟩
      unfold TelegramChannel.error
      rw [if_neg hc]
      simp [h1]
    | badRequest =>
      have h1 : classify ⟨txt, ETag.badRequest⟩ = EClass.invalidRequest := by
        unfold classify
        rw [if_neg hc]
      unfold TelegramChannel.error
      rw [if_neg hc]
      simp [h1]
    | timedOut =>
      have h1 : classify ⟨txt, ETag.timedOut⟩ = EClass.networkTransient :=
        (classify_eq_network_iff _).mpr ⟨hcf, Or.inl rfl⟩
      rw [error_eq_networkBranch cfg env st upd _ h1, networkBranch_raised]
      by_cases hcond : hasMessage upd = true ∧ env.replyOk = false
      · rw [if_pos hcond]
        simp [h1, hcond.1, hcond.2]
      · rw [if_neg hcond]
        simp [h1, hcond]
    | networkError =>
      have h1 : classify ⟨txt, ETag.networkError⟩ = EClass.networkTransient :=
        (classify_eq_network_iff _).mpr ⟨hcf, Or.inr rfl⟩
      rw [error_eq_networkBranch cfg env st upd _ h1, networkBranch_raised]
      by_cases hcond : hasMessage upd = true ∧ env.replyOk = false
      · rw [if_pos hcond]
        simp [h1, hcond.1, hcond.2]
      · rw [if_neg hcond]
        simp [h1, hcond]
    | chatMigrated n =>
      have h1 : classify ⟨txt, ETag.chatMigrated n⟩ = EClass.conversationMigrated n :=
        (classify_eq_migrated_iff _ n).mpr ⟨hcf, rfl⟩
      rw [error_eq_migratedBranch cfg env st upd _ n h1, migratedBranch_raised]
      by_cases hm : hasMessage upd = true
      · by_cases hs : env.migrateSendOk = true
        · rw [if_pos hm, if_pos hs]
          simp [h1, hm, hs]
        · have hs' : env.migrateSendOk = false := by simpa using hs
          rw [if_pos hm, if_neg hs]
          simp [h1, hm, hs']
      · have hm' : hasMessage upd = false := by simpa using hm
        rw [if_neg hm]
        simp [h1, hm']
    | otherError =>
      have h1 : classify ⟨txt, ETag.otherError⟩ = EClass.unclassified := by
        unfold classify
        rw [if_neg hc]
      unfold TelegramChannel.error
      rw [if_neg hc]
      simp [h1]

/-- Claim C1, counterexample to the claim as stated: a `ChatMigrated`
error whose update carries no message does not return normally — the
`AttributeError` from `update.message.chat_id` propagates to the
caller. -/
theorem c1_counterexample_migration_no_message :
    ¬ ((TelegramChannel.error cfgS envAll stS none errMigr).raised = none) := by decide

/-- Claim C2, corrected (amended).  A network-transient failure
(`TimedOut` or `NetworkError`) increments `timeout_count` by exactly
one, and the periodic operator summary is sent exactly when the
configured interval is positive, the counter after increment is
divisible by it, AND the best-effort reply — when one is attempted —
does not itself fail (a failed `reply_text` raises out of the branch
before the summary check runs, which the original claim missed).
Interval 0 disables alerting; with interval 5 five consecutive failures
from a fresh counter give exactly one summary and four give none. -/
theorem c2_network_counter_alert (cfg : Config) (env : Env) (st : ChanState)
    (upd : Option TUpdate) (e : TGError) (h : classify e = EClass.networkTransient) :
    (TelegramChannel.error cfg env st upd e).state.timeout_count = st.timeout_count + 1 ∧
    countSummaryAlerts (TelegramChannel.error cfg env st upd e).effects =
      (if 0 < cfg.network_error_prompt_interval ∧
          (st.timeout_count + 1) % cfg.network_error_prompt_interval = 0 ∧
          (hasMessage upd = true → env.replyOk = true) then 1 else 0) ∧
    (cfg.network_error_prompt_interval = 0 →
      countSummaryAlerts (TelegramChannel.error cfg env st upd e).effects = 0) ∧
    countSummaryAlerts (runSeq cfgS envAll none errTimeout 5 ⟨0, []⟩).2 = 1 ∧
    countSummaryAlerts (runSeq cfgS envAll none errTimeout 4 ⟨0, []⟩).2 = 0 := by
  rw [error_eq_networkBranch cfg env st upd e h, networkBranch_state,
    countSummaryAlerts_networkBranch]
  refine ⟨rfl, rfl, ?_, by decide, by decide⟩
  intro h0
  rw [if_neg]
  intro hcon
  rw [h0] at hcon
  exact absurd hcon.1 (by simp)

/-- Claim C2, witness: a fresh counter and a `TimedOut` error with no
reply target under interval 5 — the counter becomes 1 and no summary is
sent. -/
theorem c2_network_counter_alert_witness :
    classify errTimeout = EClass.networkTransient ∧
    (TelegramChannel.error cfgS envAll ⟨0, []⟩ none errTimeout).state.timeout_count = 1 ∧
    countSummaryAlerts (TelegramChannel.error cfgS envAll ⟨0, []⟩ none errTimeout).effects = 0 :=
  ⟨by decide, (c2_network_counter_alert cfgS envAll ⟨0, []⟩ none errTimeout (by decide)).1,
    by
      have h2 := (c2_network_counter_alert cfgS envAll ⟨0, []⟩ none errTimeout (by decide)).2.1
      rw [h2]
      decide⟩

/-- Claim C2, counterexample to the claim as stated: counter 4,
interval 5, a `TimedOut` error with a reply target whose reply send
fails — the counter after increment (5) is divisible by the positive
interval, yet no operator summary is sent. -/
theorem c2_counterexample_reply_failure :
    0 < cfgS.network_error_prompt_interval ∧
    (TelegramChannel.error cfgS envBadReply ⟨4, []⟩ updMsg errTimeout).state.timeout_count %
      cfgS.network_error_prompt_interval = 0 ∧
    countSummaryAlerts
      (TelegramChannel.error cfgS envBadReply ⟨4, []⟩ updMsg errTimeout).effects = 0 := by
  decide

/-- Claim C5, corrected (amended).  For a network-transient failure
whose update carries a message, the handler attempts exactly one
best-effort reply to that message; but a failure of that reply send is
NOT swallowed: it propagates out of the handler, and the branch performs
nothing further (in particular no operator summary), which is what the
original claim got wrong. -/
theorem c5_reply_best_effort (cfg : Config) (env : Env) (st : ChanState) (u : TUpdate)
    (m : TMessage) (e : TGError)
    (h : classify e = EClass.networkTransient) (hm : u.message = some m) :
    Effect.replyText m.chat_id ∈ (TelegramChannel.error cfg env st (some u) e).effects ∧
    (TelegramChannel.error cfg env st (some u) e).effects.countP isReplyEffect = 1 ∧
    (env.replyOk = false →
      (TelegramChannel.error cfg env st (some u) e).raised = some Raised.replyFailed ∧
      (TelegramChannel.error cfg env st (some u) e).effects =
        [Effect.logError LogSite.networkErr, Effect.replyText m.chat_id]) := by
  rw [error_eq_networkBranch cfg env st (some u) e h]
  obtain ⟨msg⟩ := u
  cases hm
  unfold networkBranch
  dsimp only
  by_cases hr : env.replyOk = true
  · rw [if_pos hr, afterReply_effects]
    refine ⟨List.mem_append_left _ (by simp), ?_, fun habs => absurd hr (by simp [habs])⟩
    rw [List.countP_append]
    by_cases hc2 : 0 < cfg.network_error_prompt_interval ∧
        (st.timeout_count + 1) % cfg.network_error_prompt_interval = 0
    · rw [if_pos hc2]
      simp [List.countP_cons, isReplyEffect]
    · rw [if_neg hc2]
      simp [List.countP_cons, isReplyEffect]
  · rw [if_neg hr]
    exact ⟨by simp, by simp [List.countP_cons, isReplyEffect], fun _ => ⟨rfl, rfl⟩⟩

/-- Claim C5, witness: counter 4, reply target in chat 100, failed
reply — the reply was attempted once and its failure propagated,
cutting the branch short. -/
theorem c5_reply_best_effort_witness :
    classify errTimeout = EClass.networkTransient ∧
    Effect.replyText 100 ∈
      (TelegramChannel.error cfgS envBadReply ⟨4, []⟩ (some ⟨some ⟨100⟩⟩) errTimeout).effects ∧
    (TelegramChannel.error cfgS envBadReply ⟨4, []⟩ (some ⟨some ⟨100⟩⟩) errTimeout).raised =
      some Raised.replyFailed :=
  ⟨by decide,
    (c5_reply_best_effort cfgS envBadReply ⟨4, []⟩ ⟨some ⟨100⟩⟩ ⟨100⟩ errTimeout
      (by decide) rfl).1,
    ((c5_reply_best_effort cfgS envBadReply ⟨4, []⟩ ⟨some ⟨100⟩⟩ ⟨100⟩ errTimeout
      (by decide) rfl).2.2 rfl).1⟩

/-- Claim C5, counterexample to the claim as stated: the failed
best-effort reply is not swallowed locally — the exception escalates out
of the handler. -/
theorem c5_counterexample_reply_escalates :
    (TelegramChannel.error cfgS envBadReply stS updMsg errTimeout).raised =
      some Raised.replyFailed := by decide

/-- Claim C6, confirmed.  A failure classified as `PollingConflict`
produces exactly a critical log and one operator alert to
`admins[0]`, returns immediately, raises nothing, and leaves both the
network-error counter and the association store unchanged. -/
theorem c6_polling_conflict_frame (cfg : Config) (env : Env) (st : ChanState)
    (upd : Option TUpdate) (e : TGError) (h : classify e = EClass.pollingConflict) :
    TelegramChannel.error cfg env st upd e =
      ⟨st, [Effect.logCritical, Effect.adminSend (cfg.admins.headD 0) AlertKind.conflict],
        none⟩ ∧
    (TelegramChannel.error cfg env st upd e).state.timeout_count = st.timeout_count ∧
    (TelegramChannel.error cfg env st upd e).state.assocs = st.assocs ∧
    (TelegramChannel.error cfg env st upd e).effects.countP isOperatorAlert = 1 := by
  have hc := (classify_eq_conflict_iff e).mp h
  unfold TelegramChannel.error
  rw [if_pos hc]
  exact ⟨rfl, rfl, rfl, by simp [List.countP_cons, isOperatorAlert]⟩

/-- Claim C6, witness: an error carrying the 409-conflict marker takes
the conflict path with one alert and an unchanged state. -/
theorem c6_polling_conflict_frame_witness :
    classify ⟨conflictMsgText, ETag.otherError⟩ = EClass.pollingConflict ∧
    TelegramChannel.error cfgS envAll stS none ⟨conflictMsgText, ETag.otherError⟩ =
      ⟨stS, [Effect.logCritical, Effect.adminSend 102938475 AlertKind.conflict], none⟩ :=
  ⟨by decide,
    (c6_polling_conflict_frame cfgS envAll stS none ⟨conflictMsgText, ETag.otherError⟩
      (by decide)).1⟩

/-- Claim C7, confirmed.  A failure classified as `Unauthorized` only
writes a log record: no send of any kind goes through the gateway and
the state (counter and associations) is unchanged. -/
theorem c7_unauthorized_log_only (cfg : Config) (env : Env) (st : ChanState)
    (upd : Option TUpdate) (e : TGError) (h : classify e = EClass.unauthorized) :
    TelegramChannel.error cfg env st upd e =
      ⟨st, [Effect.logError LogSite.unauthorizedErr], none⟩ ∧
    (TelegramChannel.error cfg env st upd e).effects.countP isSendEffect = 0 := by
  obtain ⟨hcf, hty⟩ := (classify_eq_unauthorized_iff e).mp h
  unfold TelegramChannel.error
  rw [if_neg (by simp [hcf]), hty]
  exact ⟨rfl, by simp [List.countP_cons, isSendEffect]⟩

/-- Claim C7, witness: a concrete `Unauthorized` error only logs. -/
theorem c7_unauthorized_log_only_witness :
    classify ⟨"Unauthorized", ETag.unauthorized⟩ = EClass.unauthorized ∧
    TelegramChannel.error cfgS envAll stS updMsg ⟨"Unauthorized", ETag.unauthorized⟩ =
      ⟨stS, [Effect.logError LogSite.unauthorizedErr], none⟩ :=
  ⟨by decide,
    (c7_unauthorized_log_only cfgS envAll stS updMsg ⟨"Unauthorized", ETag.unauthorized⟩
      (by decide)).1⟩

/-- Claim C8, confirmed.  For every invocation of the handler whose
error is not classified as a conversation migration, the persisted
association store is unchanged: the migration branch is the only one
that adds or removes association rows. -/
theorem c8_assoc_store_frame (cfg : Config) (env : Env) (st : ChanState)
    (upd : Option TUpdate) (e : TGError)
    (h : isMigratedClass (classify e) = false) :
    (TelegramChannel.error cfg env st upd e).state.assocs = st.assocs := by
  obtain ⟨txt, ty⟩ := e
  by_cases hc : containsSub conflictMsgText.data txt.data = true
  · unfold TelegramChannel.error
    rw [if_pos hc]
  · cases ty with
    | unauthorized => unfold TelegramChannel.error; rw [if_neg hc]
    | badRequest => unfold TelegramChannel.error; rw [if_neg hc]
    | timedOut =>
      unfold TelegramChannel.error
      rw [if_neg hc]
      dsimp only
      rw [networkBranch_state]
    | networkError =>
      unfold TelegramChannel.error
      rw [if_neg hc]
      dsimp only
      rw [networkBranch_state]
    | chatMigrated n =>
      exfalso
      have hcf : containsSub conflictMsgText.data txt.data = false := by simpa using hc
      have h1 : classify ⟨txt, ETag.chatMigrated n⟩ = EClass.conversationMigrated n :=
        (classify_eq_migrated_iff _ n).mpr ⟨hcf, rfl⟩
      rw [h1] at h
      exact Bool.false_ne_true (h.symm.trans rfl)
    | otherError => unfold TelegramChannel.error; rw [if_neg hc]

/-- Claim C8, witness: a `TimedOut` failure leaves the association rows
untouched. -/
theorem c8_assoc_store_frame_witness :
    isMigratedClass (classify errTimeout) = false ∧
    (TelegramChannel.error cfgS envAll stS updMsg errTimeout).state.assocs = stS.assocs :=
  ⟨by decide, c8_assoc_store_frame cfgS envAll stS updMsg errTimeout (by decide)⟩

/-- Claim C9, confirmed.  Any error whose string form contains the
409-conflict marker takes the polling-conflict path — one critical log,
one operator alert, immediate return, state unchanged — regardless of
its exception class: the substring check precedes all type-based
dispatch. -/
theorem c9_conflict_precedence (cfg : Config) (env : Env) (st : ChanState)
    (upd : Option TUpdate) (txt : String) (ty : ETag)
    (h : containsSub conflictMsgText.data txt.data = true) :
    TelegramChannel.error cfg env st upd ⟨txt, ty⟩ =
      ⟨st, [Effect.logCritical, Effect.adminSend (cfg.admins.headD 0) AlertKind.conflict],
        none⟩ ∧
    classify ⟨txt, ty⟩ = EClass.pollingConflict := by
  constructor
  · unfold TelegramChannel.error
    rw [if_pos h]
  · exact (classify_eq_conflict_iff _).mpr h

/-- Claim C9, witness: an error that is an `Unauthorized` instance but
whose text carries the conflict marker still takes the conflict path. -/
theorem c9_conflict_precedence_witness :
    containsSub conflictMsgText.data conflictMsgText.data = true ∧
    TelegramChannel.error cfgS envAll stS updMsg ⟨conflictMsgText, ETag.unauthorized⟩ =
      ⟨stS, [Effect.logCritical, Effect.adminSend 102938475 AlertKind.conflict], none⟩ :=
  ⟨by decide,
    (c9_conflict_precedence cfgS envAll stS updMsg conflictMsgText ETag.unauthorized
      (by decide)).1⟩

/-- Claim C3, confirmed.  Handling the same `ChatMigrated` event twice
(update message in the old chat, confirmation send succeeding, distinct
old/new master keys, store without duplicate slave keys): the first run
rewrites every association of the old master to the new master and
confirms with the moved count N; the second run finds nothing under the
old master, confirms with count 0, raises nothing and changes nothing;
afterwards every one of the N slave refs is bound to the new master. -/
theorem c3_migrate_twice_idempotent (cfg : Config) (env : Env) (st : ChanState)
    (old_id new_id : Int) (txt : String)
    (hc : containsSub conflictMsgText.data txt.data = false)
    (hnd : (st.assocs.map Prod.fst).Nodup)
    (hk : etm_utils.chat_id_to_str cfg.channel_id old_id ≠
      etm_utils.chat_id_to_str cfg.channel_id new_id)
    (hsend : env.migrateSendOk = true) :
    let upd : Option TUpdate := some ⟨some ⟨old_id⟩⟩
    let err : TGError := ⟨txt, ETag.chatMigrated new_id⟩
    let oldK := etm_utils.chat_id_to_str cfg.channel_id old_id
    let newK := etm_utils.chat_id_to_str cfg.channel_id new_id
    let S := DatabaseManager.get_chat_assoc st.assocs oldK
    let r1 := TelegramChannel.error cfg env st upd err
    let r2 := TelegramChannel.error cfg env r1.state upd err
    r1.effects = List.replicate S.length Effect.logDebug ++
      [Effect.botSend new_id S.length] ∧
    r1.raised = none ∧
    DatabaseManager.get_chat_assoc r1.state.assocs oldK = [] ∧
    r2.effects = [Effect.botSend new_id 0] ∧
    r2.raised = none ∧
    r2.state = r1.state ∧
    ∀ s ∈ S, DatabaseManager.find_by_slave r2.state.assocs s = some newK := by
  intro upd err oldK newK S r1 r2
  have hcl : classify err = EClass.conversationMigrated new_id :=
    (classify_eq_migrated_iff _ new_id).mpr ⟨hc, rfl⟩
  have hSnd : S.Nodup := nodup_get_chat_assoc st.assocs oldK hnd
  have hloop := migrateLoop_spec newK S st.assocs hSnd
  have hr1 : r1 = migratedBranch cfg env st upd new_id :=
    error_eq_migratedBranch cfg env st upd err new_id hcl
  have hbr1 : migratedBranch cfg env st upd new_id =
      ⟨⟨st.timeout_count,
          st.assocs.filter (fun r => !(S.contains r.1)) ++ S.map (fun i => (i, newK))⟩,
        List.replicate S.length Effect.logDebug ++ [Effect.botSend new_id S.length],
        none⟩ := by
    unfold migratedBranch
    dsimp only
    rw [hloop, hsend]
    rfl
  have hstate1 : r1.state =
      ⟨st.timeout_count,
        st.assocs.filter (fun r => !(S.contains r.1)) ++ S.map (fun i => (i, newK))⟩ := by
    rw [hr1, hbr1]
  have hget : DatabaseManager.get_chat_assoc r1.state.assocs oldK = [] := by
    rw [hstate1]
    exact get_chat_assoc_migrated st.assocs oldK newK hk
  have hr2 : r2 = migratedBranch cfg env r1.state upd new_id :=
    error_eq_migratedBranch cfg env r1.state upd err new_id hcl
  have hbr2 : migratedBranch cfg env r1.state upd new_id =
      ⟨⟨r1.state.timeout_count, r1.state.assocs⟩, [Effect.botSend new_id 0], none⟩ := by
    unfold migratedBranch
    dsimp only
    rw [hget, hsend]
    rfl
  refine ⟨by rw [hr1, hbr1], by rw [hr1, hbr1], hget, by rw [hr2, hbr2],
    by rw [hr2, hbr2], by rw [hr2, hbr2], ?_⟩
  intro s hs
  have : r2.state.assocs = r1.state.assocs := by rw [hr2, hbr2]
  rw [this, hstate1]
  exact find_by_slave_migrated st.assocs oldK newK s hs

/-- Claim C3, witness: one association bound to master chat 100
migrating to chat 200 — first run moves and reports 1, second run
reports 0, the row ends bound to the new master key. -/
theorem c3_migrate_twice_idempotent_witness :
    containsSub conflictMsgText.data "Group migrated".data = false ∧
    (stS.assocs.map Prod.fst).Nodup ∧
    (etm_utils.chat_id_to_str cfgS.channel_id 100 ≠
      etm_utils.chat_id_to_str cfgS.channel_id 200) ∧
    (let upd : Option TUpdate := some ⟨some ⟨100⟩⟩
     let err : TGError := ⟨"Group migrated", ETag.chatMigrated 200⟩
     let oldK := etm_utils.chat_id_to_str cfgS.channel_id 100
     let newK := etm_utils.chat_id_to_str cfgS.channel_id 200
     let S := DatabaseManager.get_chat_assoc stS.assocs oldK
     let r1 := TelegramChannel.error cfgS envAll stS upd err
     let r2 := TelegramChannel.error cfgS envAll r1.state upd err
     r1.effects = List.replicate S.length Effect.logDebug ++
       [Effect.botSend 200 S.length] ∧
     r1.raised = none ∧
     DatabaseManager.get_chat_assoc r1.state.assocs oldK = [] ∧
     r2.effects = [Effect.botSend 200 0] ∧
     r2.raised = none ∧
     r2.state = r1.state ∧
     ∀ s ∈ S, DatabaseManager.find_by_slave r2.state.assocs s = some newK) :=
  ⟨by decide, by decide, by decide,
    c3_migrate_twice_idempotent cfgS envAll stS 100 200 "Group migrated"
      (by decide) (by decide) (by decide) rfl⟩

/-- Claim C4, corrected (amended).  The claim said a reader looking up
the migrating slave ref sees the old or the new row at every
intermediate state, never an absent row.  On the code the per-row
migration is a `remove_chat_assoc` followed by a separate
`add_chat_assoc`: the three successive store states show the reader the
old row, then NO row, then the new row. -/
theorem c4_row_trace_visibility (A : List (String × String)) (s oldM newM : String)
    (h : DatabaseManager.find_by_slave A s = some oldM) :
    (migrationRowTrace A s newM).map (fun t => DatabaseManager.find_by_slave t s) =
      [some oldM, none, some newM] := by
  unfold migrationRowTrace
  rw [List.map_cons, List.map_cons, List.map_cons, List.map_nil]
  rw [h, find_by_slave_remove, find_by_slave_add_after_remove]

/-- Claim C4, witness: a concrete two-row store; migrating the second
row passes through the absent state and ends at the new master. -/
theorem c4_row_trace_visibility_witness :
    DatabaseManager.find_by_slave [("irc#chan", "m1"), ("wechat#g2", "m2")] "wechat#g2" =
      some "m2" ∧
    (migrationRowTrace [("irc#chan", "m1"), ("wechat#g2", "m2")] "wechat#g2" "m9").map
      (fun t => DatabaseManager.find_by_slave t "wechat#g2") =
      [some "m2", none, some "m9"] :=
  ⟨by decide,
    c4_row_trace_visibility [("irc#chan", "m1"), ("wechat#g2", "m2")] "wechat#g2" "m2" "m9"
      (by decide)⟩

/-- Claim C4, counterexample to the claim as stated: in the store state
between the remove and the add of a row migration, looking up the slave
ref yields no row at all. -/
theorem c4_counterexample_absent_row :
    (migrationRowTrace stS.assocs "wechat#group1" "blueset.telegram#200").map
      (fun t => DatabaseManager.find_by_slave t "wechat#group1") =
      [some "blueset.telegram#100", none, some "blueset.telegram#200"] := by decide

/-- Claim C10, confirmed.  `load_config` normalizes the admins field
before validating it — a single integer becomes a one-element integer
list, a digit string becomes a one-element list of its integer value,
and digit strings inside a list are converted to integers — and it
raises `ValueError` exactly when the token is not a string, or the
admins value does not normalize to a non-empty list, or some entry of
that list is neither an integer nor a digit string. -/
theorem c10_load_config_normalization (d : ConfData) :
    (exceptOk (TelegramChannel.load_config d) = true ↔
      ((∃ s, d.token = PyVal.pyStr s) ∧
       (∃ xs, normalize_admins d.admins = PyVal.pyList xs ∧ xs ≠ [] ∧
          ∀ e ∈ xs, ((∃ n, e = PyVal.pyInt n) ∨
            (∃ s, e = PyVal.pyStr s ∧ pyIsDigit s = true))))) ∧
    (∀ t n, d.token = PyVal.pyStr t → d.admins = PyVal.pyInt n →
      TelegramChannel.load_config d = Except.ok (t, [n])) ∧
    (∀ t s, d.token = PyVal.pyStr t → d.admins = PyVal.pyStr s → pyIsDigit s = true →
      TelegramChannel.load_config d = Except.ok (t, [pyToInt s])) ∧
    (∀ t s, d.token = PyVal.pyStr t → d.admins = PyVal.pyList [PyVal.pyStr s] →
      pyIsDigit s = true →
      TelegramChannel.load_config d = Except.ok (t, [pyToInt s])) := by
  obtain ⟨tok, adm⟩ := d
  refine ⟨?_, ?_, ?_, ?_⟩
  · unfold TelegramChannel.load_config
    dsimp only
    cases tok with
    | pyStr t =>
      cases hn : normalize_admins adm with
      | pyList xs =>
        dsimp only
        by_cases hlen : xs.length < 1
        · have hxs : xs = [] := List.length_eq_zero.mp (Nat.lt_one_iff.mp hlen)
          rw [if_pos hlen]
          subst hxs
          simp [exceptOk, hn]
        · rw [if_neg hlen]
          have hne : xs ≠ [] := by
            intro hx
            exact hlen (by rw [hx]; decide)
          cases hcv : convert_admins xs with
          | ok ys =>
            have hok : exceptOk (convert_admins xs) = true := by rw [hcv]; rfl
            simp only [exceptOk, hn, PyVal.pyList.injEq]
            constructor
            · intro _
              exact ⟨⟨t, rfl⟩, ⟨xs, rfl, hne, (convert_admins_ok_iff xs).mp hok⟩⟩
            · intro _
              trivial
          | error m =>
            have hbad : exceptOk (convert_admins xs) = false := by rw [hcv]; rfl
            simp only [exceptOk, hn, PyVal.pyList.injEq]
            constructor
            · intro habs
              exact absurd habs (by simp)
            · rintro ⟨-, xs', hxs', -, hall⟩
              exfalso
              subst hxs'
              have := (convert_admins_ok_iff xs).mpr hall
              rw [hbad] at this
              exact Bool.false_ne_true this
      | pyInt n => simp [exceptOk, hn]
      | pyStr s2 => simp [exceptOk, hn]
      | pyNone => simp [exceptOk, hn]
      | pyOther => simp [exceptOk, hn]
    | pyInt n => simp [exceptOk]
    | pyList xs => simp [exceptOk]
    | pyNone => simp [exceptOk]
    | pyOther => simp [exceptOk]
  · intro t n ht hn
    cases ht
    cases hn
    rfl
  · intro t s ht hn hd
    cases ht
    cases hn
    simp [TelegramChannel.load_config, normalize_admins, convert_admins, convert_admin, hd]
  · intro t s ht hn hd
    cases ht
    cases hn
    simp [TelegramChannel.load_config, normalize_admins, convert_admins, convert_admin, hd]

/-- Claim C10, witness: a digit-string admins field is normalized to a
one-element integer list and accepted. -/
theorem c10_load_config_normalization_witness :
    pyIsDigit "102938475" = true ∧
    TelegramChannel.load_config ⟨PyVal.pyStr "token123", PyVal.pyStr "102938475"⟩ =
      Except.ok ("token123", [pyToInt "102938475"]) :=
  ⟨by decide,
    (c10_load_config_normalization ⟨PyVal.pyStr "token123", PyVal.pyStr "102938475"⟩).2.2.1
      "token123" "102938475" rfl rfl (by decide)⟩
